import Mathlib

/-
Shallow embedding of `generate_sequence.py` (class `GenerateSequenceOfItems`):
a configuration-driven generator that reads a JSON config, derives a duration
and a rate, builds `duration × rate` item records with sequential ids and
second-spaced timestamps, sorts them by the formatted timestamp string and
emits them one JSON object per line.

Modelling conventions:
- JSON values are the inductive `Json`; machine integers are `Int`.
- Python exceptions are values of `PyErr`; fallible code returns `Except`.
- The process-wide random source is an explicit `Entropy` record: one index
  per colour draw, one per material draw (draws are keyed by the record id,
  there is exactly one draw of each kind per record), and the function
  backing `random.randint`.
- File I/O in `parse_config` is abstracted by an `Option Json` argument:
  `some j` means opening the file and `json.load` succeed with value `j`,
  `none` means either raises (all caught by the same handler in the source).
- `datetime` is modelled as seconds since the Unix epoch (`Nat`), converted
  to civil calendar fields for `strftime`.
-/

namespace GenSeq

/-- Python exceptions that the modelled code can raise or catch. -/
inductive PyErr where
  | typeError
  | indexError
  | keyError
  | valueError
  | exceptionMsg (msg : String)
deriving Repr, DecidableEq

/-- JSON values, as produced by `json.load` (integers only; the configs the
spec describes use integer numbers). -/
inductive Json where
  | null
  | bool (b : Bool)
  | num (n : Int)
  | str (s : String)
  | arr (elems : List Json)
  | obj (fields : List (String × Json))

/-- Python subscripting `j[k]` with a string key: a `dict` looks the key up
(`KeyError` when absent); every other JSON value raises `TypeError`. -/
def Json.getKey : Json → String → Except PyErr Json
  | .obj fields, k =>
      match fields.lookup k with
      | some v => .ok v
      | none => .error .keyError
  | _, _ => .error .typeError

/-- Python `int(x)`: integers pass through, booleans become 0/1, strings are
parsed (`ValueError` on failure), other values raise `TypeError`. -/
def pyInt : Json → Except PyErr Int
  | .num n => .ok n
  | .bool b => .ok (if b then 1 else 0)
  | .str s =>
      match s.trim.toInt? with
      | some n => .ok n
      | none => .error .valueError
  | _ => .error .typeError

/-- Python `str(x)` for JSON values. Containers go through `repr`; its exact
text never matters here (every property proved below draws from string
pools), so it is abbreviated. -/
def pyStr : Json → String
  | .str s => s
  | .num n => toString n
  | .bool b => if b then "True" else "False"
  | .null => "None"
  | .arr _ => "[...]"
  | .obj _ => "\x7b...\x7d"

/-- Python `random.choice(seq)` where the index drawn by the RNG is supplied
explicitly (reduced modulo the length, so every element is reachable).
`choice` on an empty sequence raises `IndexError`; on a `dict` the integer
subscript raises `KeyError` (JSON object keys are strings); on a
non-sequence it raises `TypeError`. -/
def pyChoice (j : Json) (idx : Nat) : Except PyErr Json :=
  match j with
  | .arr l =>
      if h : l.length = 0 then .error .indexError
      else .ok (l.get ⟨idx % l.length, Nat.mod_lt idx (Nat.pos_of_ne_zero h)⟩)
  | .str s =>
      if s.length = 0 then .error .indexError
      else .ok (.str (String.singleton (s.data.getD (idx % s.length) ' ')))
  | .obj _ => .error .keyError
  | _ => .error .typeError

/-- Explicit stand-in for the process-wide random source: the index drawn
for the colour (resp. material) choice of record `id`, and the function
backing `random.randint`. -/
structure Entropy where
  colourIdx : Nat → Nat
  materialIdx : Nat → Nat
  randint : Int → Int → Int

/-- Python `random.randint(a, b)`: raises `ValueError` when `a > b`,
otherwise returns the RNG's draw from the inclusive range. -/
def randintE (randint : Int → Int → Int) (a b : Int) : Except PyErr Int :=
  if a ≤ b then .ok (randint a b) else .error .valueError

/-- Shared subscript chain `config["attributes"][attr]["values"]` used by
both attribute getters (source lines 89 and 104). -/
def lookup_values (config : Json) (attr : String) : Except PyErr Json :=
  match config.getKey "attributes" with
  | .error e => .error e
  | .ok attrs =>
      match attrs.getKey attr with
      | .error e => .error e
      | .ok a => a.getKey "values"

/-- Source `get_colour_attribute` (lines 81-94): look up
`config["attributes"]["colour"]["values"]`, draw with `random.choice`, apply
`str`; only `KeyError` is caught (returning `None`), every other exception
(in particular `IndexError` from an empty pool) propagates. -/
def get_colour_attribute (config : Json) (idx : Nat) : Except PyErr (Option String) :=
  match lookup_values config "colour" with
  | .error .keyError => .ok none
  | .error e => .error e
  | .ok values =>
      match pyChoice values idx with
      | .error .keyError => .ok none
      | .error e => .error e
      | .ok chosen => .ok (some (pyStr chosen))

/-- Source `get_material_attribute` (lines 96-109): same shape as
`get_colour_attribute` with the `material` key. -/
def get_material_attribute (config : Json) (idx : Nat) : Except PyErr (Option String) :=
  match lookup_values config "material" with
  | .error .keyError => .ok none
  | .error e => .error e
  | .ok values =>
      match pyChoice values idx with
      | .error .keyError => .ok none
      | .error e => .error e
      | .ok chosen => .ok (some (pyStr chosen))

/-- Source `get_duration` (lines 68-79). The `except KeyError` and
`except ValueError` handlers construct an `Exception` object WITHOUT raising
it, so the function falls through and returns Python's implicit `None`,
modelled as `.ok none`. A `TypeError` from `int()` on a non-convertible
value is not caught and propagates. -/
def get_duration (config : Json) : Except PyErr (Option Int) :=
  match config.getKey "duration" with
  | .error .keyError => .ok none
  | .error e => .error e
  | .ok v =>
      match pyInt v with
      | .ok n => .ok (some n)
      | .error .valueError => .ok none
      | .error e => .error e

/-- First branch of the `try` in `get_rate` (source lines 117-121):
`randint(int(config["rate"]["min"]), int(config["rate"]["max"]))`, the
first exception propagating. -/
def rate_from_range (config : Json) (randint : Int → Int → Int) : Except PyErr Int :=
  match config.getKey "rate" with
  | .error e => .error e
  | .ok rate1 =>
      match rate1.getKey "min" with
      | .error e => .error e
      | .ok mn =>
          match config.getKey "rate" with
          | .error e => .error e
          | .ok rate2 =>
              match rate2.getKey "max" with
              | .error e => .error e
              | .ok mx =>
                  match pyInt mn with
                  | .error e => .error e
                  | .ok a =>
                      match pyInt mx with
                      | .error e => .error e
                      | .ok b => randintE randint a b

/-- Source `get_rate` (lines 111-128): first try
`randint(int(config["rate"]["min"]), int(config["rate"]["max"]))`;
`except ValueError` swallows the error (the constructed `Exception` is
never raised, so the function returns `None`);
`except (KeyError, TypeError)` falls back to `int(config["rate"])`, whose
failures are swallowed by a bare `except` (again returning `None`). -/
def get_rate (config : Json) (randint : Int → Int → Int) : Except PyErr (Option Int) :=
  match rate_from_range config randint with
  | .ok n => .ok (some n)
  | .error .valueError => .ok none
  | .error .keyError | .error .typeError =>
      (match config.getKey "rate" with
       | .error _ => .ok none
       | .ok r =>
           match pyInt r with
           | .ok n => .ok (some n)
           | .error _ => .ok none)
  | .error e => .error e

/-- Civil calendar fields of a point in time, the inputs of `strftime`. -/
structure DateTime where
  year : Nat
  month : Nat
  day : Nat
  hour : Nat
  minute : Nat
  second : Nat
deriving Repr, DecidableEq

/-- Convert a count of days since 1970-01-01 to a civil (year, month, day),
by the standard 400-year-era algorithm used by calendar libraries. -/
def civilFromDays (z0 : Nat) : Nat × Nat × Nat :=
  let z := z0 + 719468
  let era := z / 146097
  let doe := z % 146097
  let yoe := (doe - doe / 1460 + doe / 36524 - doe / 146096) / 365
  let y := yoe + era * 400
  let doy := doe - (365 * yoe + yoe / 4 - yoe / 100)
  let mp := (5 * doy + 2) / 153
  let d := doy - (153 * mp + 2) / 5 + 1
  let m := if mp < 10 then mp + 3 else mp - 9
  (if m ≤ 2 then y + 1 else y, m, d)

/-- Seconds since the epoch to civil date and time of day. -/
def toDateTime (t : Nat) : DateTime :=
  let c := civilFromDays (t / 86400)
  { year := c.1, month := c.2.1, day := c.2.2
    hour := t % 86400 / 3600, minute := t / 60 % 60, second := t % 60 }

/-- Zero-pad a number to two digits, as `strftime` does for
`%d %m %H %M %S`. -/
def pad2 (n : Nat) : String :=
  if n < 10 then "0" ++ toString n else toString n

/-- Zero-pad a year to four digits, as CPython's `strftime` does for `%Y`. -/
def pad4 (n : Nat) : String :=
  if n < 10 then "000" ++ toString n
  else if n < 100 then "00" ++ toString n
  else if n < 1000 then "0" ++ toString n
  else toString n

/-- Directive-by-directive interpreter for the `strftime` format string:
`%`-escapes draw the corresponding civil field, every other character is
copied literally. -/
def strftimeChars (dt : DateTime) : List Char → List Char
  | [] => []
  | '%' :: c :: rest =>
      (match c with
       | 'Y' => (pad4 dt.year).data
       | 'm' => (pad2 dt.month).data
       | 'd' => (pad2 dt.day).data
       | 'H' => (pad2 dt.hour).data
       | 'M' => (pad2 dt.minute).data
       | 'S' => (pad2 dt.second).data
       | '%' => ['%']
       | other => ['%', other]) ++ strftimeChars dt rest
  | c :: rest => c :: strftimeChars dt rest

/-- Python `dt.strftime(fmt)` over the directives the source uses. -/
def strftime (fmt : String) (dt : DateTime) : String :=
  String.mk (strftimeChars dt fmt.data)

/-- The format string passed to `strftime` at source line 142. -/
def fmtPattern : String := "%Y-%d-%m, %H:%M:%S"

/-- One output record. Python builds a dict with `id` and `timestamp` and
optionally adds `colour` and `material`; absent keys are `none`. -/
structure Record where
  id : Nat
  timestamp : String
  colour : Option String := none
  material : Option String := none
deriving Repr, DecidableEq

/-- Source `build_base_dict` (lines 131-144):
`timestamp = starting_timestamp + timedelta(0, id - 1)` formatted with
`"%Y-%d-%m, %H:%M:%S"`; the dict holds `id` and the formatted timestamp. -/
def build_base_dict (start : Nat) (id : Nat) : Record :=
  { id := id, timestamp := strftime fmtPattern (toDateTime (start + (id - 1))) }

/-- Python truthiness of the drawn attribute: `if colour:` is false exactly
for `None` and for the empty string. -/
def pyTruthyStr (s : String) : Bool := s ≠ ""

/-- One iteration of the inner generation loop (source lines 182-200):
build the base dict for the current id, draw a colour and a material, and
add each to the dict only when truthy. Uncaught exceptions from the draws
abort the whole run. -/
def build_item (start : Nat) (config : Json) (ent : Entropy) (id : Nat) :
    Except PyErr Record :=
  let base := build_base_dict start id
  match get_colour_attribute config (ent.colourIdx id) with
  | .error e => .error e
  | .ok colour =>
      match get_material_attribute config (ent.materialIdx id) with
      | .error e => .error e
      | .ok material =>
          let withColour :=
            match colour with
            | some s => if pyTruthyStr s then { base with colour := some s } else base
            | none => base
          .ok (match material with
               | some s => if pyTruthyStr s then { withColour with material := some s } else withColour
               | none => withColour)

/-- The inner `for r in range(rate)` loop: run `build_item` `n` times,
incrementing the id counter, collecting records in order; returns the
records together with the next id. -/
def inner_loop (start : Nat) (config : Json) (ent : Entropy) :
    Nat → Nat → Except PyErr (List Record × Nat)
  | 0, id => .ok ([], id)
  | n + 1, id =>
      match build_item start config ent id with
      | .error e => .error e
      | .ok item =>
          match inner_loop start config ent n (id + 1) with
          | .error e => .error e
          | .ok (rest, idEnd) => .ok (item :: rest, idEnd)

/-- The outer `for d in range(duration)` loop. `range(rate)` is evaluated
afresh on each outer iteration, so a `rate` of `None` (the swallowed-error
case of `get_rate`) raises `TypeError` only when the outer loop runs at
least once. -/
def outer_loop (start : Nat) (config : Json) (ent : Entropy) :
    Nat → Option Int → Nat → Except PyErr (List Record × Nat)
  | 0, _, id => .ok ([], id)
  | n + 1, rOpt, id =>
      match rOpt with
      | none => .error .typeError
      | some r =>
          match inner_loop start config ent r.toNat id with
          | .error e => .error e
          | .ok (batch, id1) =>
              match outer_loop start config ent n rOpt id1 with
              | .error e => .error e
              | .ok (rest, id2) => .ok (batch ++ rest, id2)

/-- Record generation phase of `generate_sequence` (source lines 157-200):
resolve duration and rate, then run the two nested counting loops starting
from id 1. `range(duration)` with the `None` produced by a swallowed
duration error raises `TypeError` before any iteration. Negative resolved
values give empty ranges, as in Python. -/
def generate_records (start : Nat) (config : Json) (ent : Entropy) :
    Except PyErr (List Record) :=
  match get_duration config with
  | .error e => .error e
  | .ok dOpt =>
      match get_rate config ent.randint with
      | .error e => .error e
      | .ok rOpt =>
          match dOpt with
          | none => .error .typeError
          | some d =>
              match outer_loop start config ent d.toNat rOpt 1 with
              | .error e => .error e
              | .ok (items, _) => .ok items

/-- Source `check_file_format` (lines 32-40): take the text after the last
`.` of the path (`split(".")[-1]`), uppercase it, compare with `"JSON"`. -/
def splitOnChar (c : Char) : List Char → List (List Char)
  | [] => [[]]
  | x :: xs =>
      match splitOnChar c xs with
      | [] => [[]]
      | r :: rs => if x = c then [] :: r :: rs else (x :: r) :: rs

/-- Python `str.upper()` (ASCII suffices for the paths considered). -/
def pyUpper (l : List Char) : List Char := l.map Char.toUpper

/-- Source `check_file_format` (lines 32-40): returns `false` exactly when
the last `.`-separated segment of the path, uppercased, differs from
`"JSON"`. A dotless path is its own last segment. -/
def check_file_format (filePath : String) : Bool :=
  pyUpper ((splitOnChar '.' filePath.data).getLastD []) == "JSON".data

/-- The one error message `parse_config` ever raises (source line 49). -/
def config_error_message : String := "Please provide valid json file."

/-- Truthiness of the condition at source line 51, `if self.check_file_format:`.
The call parentheses are missing, so Python tests the bound-method OBJECT,
which is always truthy; `check_file_format` itself is never invoked. -/
def bound_method_is_truthy : Bool := true

/-- Source `parse_config` (lines 42-65): guard on the (mis-written)
condition of line 51, then open and `json.load` the file; every exception
from that block is caught and re-raised as
`Exception("Please provide valid json file.")`. The `filePath` argument is
what the extension check WOULD inspect; the `fileResult` argument abstracts
the file system and JSON parser. -/
def parse_config (filePath : String) (fileResult : Option Json) : Except PyErr Json :=
  if bound_method_is_truthy then
    match fileResult with
    | some j => .ok j
    | none => .error (.exceptionMsg config_error_message)
  else .error (.exceptionMsg config_error_message)

/-- Python string comparison `a <= b`: lexicographic on the character
sequences, a strict prefix comparing below its extensions. -/
def leChars : List Char → List Char → Bool
  | [], _ => true
  | _ :: _, [] => false
  | a :: as, b :: bs => if a = b then leChars as bs else decide (a < b)

/-- Comparison key of the final sort (source line 203):
`key=lambda item: item['timestamp']`, ascending. Python compares the
timestamp strings lexicographically by code point. -/
def recordLE (a b : Record) : Bool := leChars a.timestamp.data b.timestamp.data

/-- Source `generate_sequence` (lines 147-207): parse the config, generate
the records, stable-sort them by the formatted timestamp string, and emit
them in that order (the emitted lines are exactly the sorted list). -/
def generate_sequence (filePath : String) (fileResult : Option Json)
    (ent : Entropy) (start : Nat) : Except PyErr (List Record) :=
  match parse_config filePath fileResult with
  | .error e => .error e
  | .ok config =>
      match generate_records start config ent with
      | .error e => .error e
      | .ok items => .ok (items.mergeSort recordLE)

/-- Records actually printed by a run: the sorted list on success, nothing
when the run died on an exception (printing happens only after the loops
and the sort). -/
def emitted : Except PyErr (List Record) → List Record
  | .ok l => l
  | .error _ => []

/-- Number of lines printed by a run. -/
def emitted_count (res : Except PyErr (List Record)) : Nat := (emitted res).length

/-- The id column of a record list, in list order. -/
def ids_of (l : List Record) : List Nat := l.map Record.id

/-- A fixed, fully deterministic entropy source used to instantiate
theorems on concrete runs: every choice takes index 0 and `randint`
returns the lower bound. -/
def entZero : Entropy :=
  { colourIdx := fun _ => 0, materialIdx := fun _ => 0, randint := fun a _ => a }

/-! Helper lemmas about the sort comparator. -/

/-- leChars agrees with the standard lexicographic order on character
lists: it accepts exactly when the reversed pair is not strictly below. -/
theorem leChars_iff_not_lex : ∀ xs ys : List Char,
    leChars xs ys = true ↔ ¬ List.Lex (· < ·) ys xs
  | [], ys =>
      ⟨fun _ h => List.Lex.not_nil_right _ ys h, fun _ => rfl⟩
  | x :: xs, [] =>
      ⟨(fun h => nomatch h), fun h => absurd List.Lex.nil h⟩
  | x :: xs, y :: ys => by
      by_cases hxy : x = y
      · subst hxy
        have hstep : leChars (x :: xs) (x :: ys) = leChars xs ys := by
          simp [leChars]
        rw [hstep, leChars_iff_not_lex xs ys]
        constructor
        · intro h hlt
          cases hlt with
          | cons h3 => exact h h3
          | rel h1 => exact lt_irrefl x h1
        · intro h hlt
          exact h (List.Lex.cons hlt)
      · have hstep : leChars (x :: xs) (y :: ys) = decide (x < y) := by
          simp [leChars, hxy]
        rw [hstep]
        rcases lt_trichotomy x y with h | h | h
        · rw [decide_eq_true h]
          simp only [true_iff]
          intro hlt
          cases hlt with
          | cons h3 => exact hxy rfl
          | rel h1 => exact lt_asymm h h1
        · exact absurd h hxy
        · rw [decide_eq_false (lt_asymm h)]
          simp only [Bool.false_eq_true, false_iff, not_not]
          exact List.Lex.rel h

/-- recordLE is the string order on the timestamp field. -/
theorem recordLE_iff (a b : Record) : recordLE a b = true ↔ a.timestamp ≤ b.timestamp := by
  rw [recordLE, leChars_iff_not_lex, String.le_iff_toList_le, ← not_lt]
  exact Iff.rfl

/-- Transitivity of the sort comparator. -/
theorem recordLE_trans (a b c : Record) (h1 : recordLE a b = true)
    (h2 : recordLE b c = true) : recordLE a c = true :=
  (recordLE_iff a c).mpr (le_trans ((recordLE_iff a b).mp h1) ((recordLE_iff b c).mp h2))

/-- Totality of the sort comparator. -/
theorem recordLE_total (a b : Record) : (recordLE a b || recordLE b a) = true := by
  rcases le_total a.timestamp b.timestamp with h | h
  · rw [(recordLE_iff a b).mpr h]; rfl
  · rw [(recordLE_iff b a).mpr h, Bool.or_true]

/-! Helper lemmas about the generation loops. -/

/-- Every successfully built item carries the id it was built with. -/
theorem build_item_id (start : Nat) (config : Json) (ent : Entropy) (id : Nat)
    (item : Record) (h : build_item start config ent id = .ok item) :
    item.id = id := by
  unfold build_item at h
  cases hc : get_colour_attribute config (ent.colourIdx id) with
  | error e => rw [hc] at h; exact nomatch h
  | ok colour =>
      rw [hc] at h
      cases hm : get_material_attribute config (ent.materialIdx id) with
      | error e => rw [hm] at h; exact nomatch h
      | ok material =>
          rw [hm] at h
          simp only [Except.ok.injEq] at h
          subst h
          rcases colour with _ | s <;> rcases material with _ | t <;>
            simp only [build_base_dict] <;> (repeat' split) <;> rfl

/-- Inner loop invariant: `n` successful iterations starting at id `id`
produce records whose ids are `id, id+1, ..., id+n-1` in order, and leave
the counter at `id + n`. -/
theorem inner_loop_ok (start : Nat) (config : Json) (ent : Entropy) :
    ∀ (n id : Nat) (items : List Record) (idEnd : Nat),
      inner_loop start config ent n id = .ok (items, idEnd) →
      items.map Record.id = List.range' id n ∧ idEnd = id + n
  | 0, id, items, idEnd => by
      intro h
      simp only [inner_loop, Except.ok.injEq, Prod.mk.injEq] at h
      obtain ⟨h1, h2⟩ := h
      subst h1; subst h2
      simp
  | n + 1, id, items, idEnd => by
      intro h
      simp only [inner_loop] at h
      cases hb : build_item start config ent id with
      | error e => rw [hb] at h; exact nomatch h
      | ok item =>
          rw [hb] at h
          cases hi : inner_loop start config ent n (id + 1) with
          | error e => rw [hi] at h; exact nomatch h
          | ok p =>
              obtain ⟨rest, idMid⟩ := p
              rw [hi] at h
              simp only [Except.ok.injEq, Prod.mk.injEq] at h
              obtain ⟨h1, h2⟩ := h
              subst h1; subst h2
              obtain ⟨ih1, ih2⟩ := inner_loop_ok start config ent n (id + 1) rest idMid hi
              constructor
              · simp only [List.map_cons, ih1, build_item_id start config ent id item hb,
                  List.range'_succ]
              · omega

/-- Outer loop invariant: `n` outer iterations at rate `r` produce records
with ids `id, ..., id + n*r.toNat - 1` in order. -/
theorem outer_loop_ok (start : Nat) (config : Json) (ent : Entropy) (r : Int) :
    ∀ (n id : Nat) (items : List Record) (idEnd : Nat),
      outer_loop start config ent n (some r) id = .ok (items, idEnd) →
      items.map Record.id = List.range' id (n * r.toNat) ∧ idEnd = id + n * r.toNat
  | 0, id, items, idEnd => by
      intro h
      simp only [outer_loop, Except.ok.injEq, Prod.mk.injEq] at h
      obtain ⟨h1, h2⟩ := h
      subst h1; subst h2
      simp
  | n + 1, id, items, idEnd => by
      intro h
      simp only [outer_loop] at h
      cases hi : inner_loop start config ent r.toNat id with
      | error e => rw [hi] at h; exact nomatch h
      | ok p =>
          obtain ⟨batch, idMid⟩ := p
          rw [hi] at h
          dsimp only at h
          cases ho : outer_loop start config ent n (some r) idMid with
          | error e => rw [ho] at h; exact nomatch h
          | ok q =>
              obtain ⟨rest, idLast⟩ := q
              rw [ho] at h
              simp only [Except.ok.injEq, Prod.mk.injEq] at h
              obtain ⟨h1, h2⟩ := h
              subst h1; subst h2
              obtain ⟨hi1, hi2⟩ := inner_loop_ok start config ent r.toNat id batch idMid hi
              obtain ⟨ho1, ho2⟩ := outer_loop_ok start config ent r n idMid rest idLast ho
              subst hi2
              constructor
              · rw [List.map_append, hi1, ho1, List.range'_append_1]
                congr 1
                ring
              · rw [Nat.succ_mul]
                omega

/-- Id spectrum of a successful generation run: with duration resolving to
`d` and rate to `r`, the generated records carry ids
`1, 2, ..., d.toNat * r.toNat` in generation order. -/
theorem generate_records_ok (start : Nat) (config : Json) (ent : Entropy)
    (d r : Int) (items : List Record)
    (hd : get_duration config = .ok (some d))
    (hr : get_rate config ent.randint = .ok (some r))
    (h : generate_records start config ent = .ok items) :
    items.map Record.id = List.range' 1 (d.toNat * r.toNat) := by
  unfold generate_records at h
  rw [hd, hr] at h
  dsimp only at h
  cases ho : outer_loop start config ent d.toNat (some r) 1 with
  | error e => rw [ho] at h; exact nomatch h
  | ok p =>
      obtain ⟨its, idE⟩ := p
      rw [ho] at h
      simp only [Except.ok.injEq] at h
      subst h
      exact (outer_loop_ok start config ent r d.toNat 1 its idE ho).1

/-! Concrete configurations used to instantiate the theorems. -/

/-- Minimal well-formed configuration: duration 2, rate 1, no attributes. -/
def cfgPlain : Json := .obj [("duration", .num 2), ("rate", .num 1)]

/-- The two records a run over cfgPlain generates when the run starts at
epoch second 0. -/
def recsPlain : List Record :=
  [{ id := 1, timestamp := "1970-01-01, 00:00:00" },
   { id := 2, timestamp := "1970-01-01, 00:00:01" }]

/-- Configuration without a duration key. -/
def cfgNoDuration : Json := .obj [("rate", .num 1)]

/-- Configuration declaring empty colour and material pools. -/
def cfgEmptyPools : Json :=
  .obj [("attributes", .obj [("colour", .obj [("values", .arr [])]),
                             ("material", .obj [("values", .arr [])])])]

/-! Claim C10. -/

/-- Splitting on a character that does not occur returns the whole list as
the single segment. -/
theorem splitOnChar_of_not_mem (c : Char) :
    ∀ l : List Char, c ∉ l → splitOnChar c l = [l]
  | [], _ => rfl
  | x :: xs, h => by
      have hx : ¬ x = c := fun hh => h (hh ▸ List.mem_cons_self x xs)
      have hxs : c ∉ xs := fun hh => h (List.mem_cons_of_mem x hh)
      simp [splitOnChar, splitOnChar_of_not_mem c xs hxs, hx]

/-- C10: for a path containing no dot, `check_file_format` takes the whole
path as the candidate extension, so it returns true exactly when the whole
path uppercases to "JSON" (e.g. a file named "JSON" with no extension), and
false for every other dotless path. -/
theorem dotless_path_extension_check (path : String) (h : '.' ∉ path.data) :
    check_file_format path = true ↔ path.data.map Char.toUpper = "JSON".data := by
  unfold check_file_format
  rw [splitOnChar_of_not_mem '.' path.data h]
  simp [pyUpper, List.getLastD]

/-- C10 witness: the dotless path "JSON" passes the extension check. -/
theorem dotless_path_extension_check_witness :
    ('.' ∉ "JSON".data)
    ∧ (check_file_format "JSON" = true ↔ "JSON".data.map Char.toUpper = "JSON".data)
    ∧ check_file_format "JSON" = true ∧ check_file_format "notjson" = false :=
  ⟨by decide, dotless_path_extension_check "JSON" (by decide), by decide, by decide⟩

/-! Claim C7. -/

/-- C7: when a configuration declares `attributes.colour.values` (or
`attributes.material.values`) as an empty list, the categorical draw for a
record raises `IndexError` — a failure, not a silent absence of the field. -/
theorem empty_pool_draw_raises (config : Json) (i j : Nat) :
    (lookup_values config "colour" = .ok (.arr []) →
      get_colour_attribute config i = .error .indexError)
    ∧ (lookup_values config "material" = .ok (.arr []) →
      get_material_attribute config j = .error .indexError) := by
  constructor
  · intro h
    unfold get_colour_attribute
    rw [h]
    rfl
  · intro h
    unfold get_material_attribute
    rw [h]
    rfl

/-- C7 witness: drawing from the declared-but-empty pools of cfgEmptyPools
raises IndexError for both attributes. -/
theorem empty_pool_draw_raises_witness :
    get_colour_attribute cfgEmptyPools 0 = .error .indexError
    ∧ get_material_attribute cfgEmptyPools 0 = .error .indexError :=
  ⟨(empty_pool_draw_raises cfgEmptyPools 0 0).1 rfl,
   (empty_pool_draw_raises cfgEmptyPools 0 0).2 rfl⟩

/-! Claim C8. -/

/-- C8: a rate given as the range object with equal bounds `n` resolves to
exactly `n`, the same value as a rate given as the plain integer `n`, for
every configuration carrying either shape under its "rate" key and every
`randint` that respects the inclusive range. -/
theorem rate_range_min_eq_max_matches_plain (config : Json) (n : Int)
    (randint : Int → Int → Int)
    (hrng : ∀ a b : Int, a ≤ b → a ≤ randint a b ∧ randint a b ≤ b) :
    (config.getKey "rate" = .ok (.obj [("min", .num n), ("max", .num n)]) →
      get_rate config randint = .ok (some n))
    ∧ (config.getKey "rate" = .ok (.num n) →
      get_rate config randint = .ok (some n)) := by
  constructor
  · intro h
    have hr : randint n n = n :=
      le_antisymm ((hrng n n le_rfl).2) ((hrng n n le_rfl).1)
    have hmin : (Json.obj [("min", Json.num n), ("max", Json.num n)]).getKey "min"
        = .ok (.num n) := rfl
    have hmax : (Json.obj [("min", Json.num n), ("max", Json.num n)]).getKey "max"
        = .ok (.num n) := rfl
    have hre : randintE randint n n = .ok (randint n n) := by
      unfold randintE
      rw [if_pos (le_refl n)]
    unfold get_rate rate_from_range
    rw [h]
    dsimp only
    rw [hmin]
    dsimp only
    rw [hmax]
    dsimp only
    rw [show pyInt (.num n) = .ok n from rfl]
    dsimp only
    rw [hre, hr]
  · intro h
    unfold get_rate rate_from_range
    rw [h]
    dsimp only
    rfl

/-- C8 witness: with rate given as the equal-bounds range 2..2 and as the
plain integer 2, the resolved rate is 2 in both cases. -/
theorem rate_range_min_eq_max_matches_plain_witness :
    get_rate (.obj [("rate", .obj [("min", .num 2), ("max", .num 2)])]) (fun a _ => a)
      = .ok (some 2)
    ∧ get_rate (.obj [("rate", .num 2)]) (fun a _ => a) = .ok (some 2) :=
  ⟨(rate_range_min_eq_max_matches_plain _ 2 _ (fun _ _ h => ⟨le_rfl, h⟩)).1 rfl,
   (rate_range_min_eq_max_matches_plain _ 2 _ (fun _ _ h => ⟨le_rfl, h⟩)).2 rfl⟩

/-! Claim C9. -/

/-- C9: when the colour (resp. material) draw returns the empty string, the
built record omits the colour (resp. material) field: presence is decided
by the truthiness of the drawn string, so a record can lack the field even
though the attribute pool is declared and non-empty. -/
theorem empty_string_draw_omits_field (start : Nat) (config : Json) (ent : Entropy)
    (id : Nat) (item : Record) :
    (get_colour_attribute config (ent.colourIdx id) = .ok (some "") →
      build_item start config ent id = .ok item → item.colour = none)
    ∧ (get_material_attribute config (ent.materialIdx id) = .ok (some "") →
      build_item start config ent id = .ok item → item.material = none) := by
  have hfalse : pyTruthyStr "" = false := rfl
  constructor
  · intro hc hb
    unfold build_item at hb
    rw [hc] at hb
    dsimp only at hb
    cases hm : get_material_attribute config (ent.materialIdx id) with
    | error e => rw [hm] at hb; exact nomatch hb
    | ok material =>
        rw [hm] at hb
        dsimp only at hb
        simp only [Except.ok.injEq] at hb
        subst hb
        rcases material with _ | t
        · simp [hfalse, build_base_dict]
        · simp only [hfalse, Bool.false_eq_true, if_false]
          split <;> simp [build_base_dict]
  · intro hm hb
    unfold build_item at hb
    cases hc : get_colour_attribute config (ent.colourIdx id) with
    | error e => rw [hc] at hb; exact nomatch hb
    | ok colour =>
        rw [hc] at hb
        dsimp only at hb
        rw [hm] at hb
        dsimp only at hb
        simp only [Except.ok.injEq] at hb
        subst hb
        rcases colour with _ | s
        · simp [hfalse, build_base_dict]
        · simp only [hfalse, Bool.false_eq_true, if_false]
          split <;> simp [build_base_dict]

/-- C9 witness: with colour pool [""] (declared, non-empty) and material
pool ["", "glass"], index 0 draws the empty string for both and the built
record carries neither field. -/
theorem empty_string_draw_omits_field_witness :
    get_colour_attribute
        (Json.obj [("attributes", .obj [("colour", .obj [("values", .arr [.str ""])]),
                                        ("material", .obj [("values", .arr [.str "", .str "glass"])])])])
        (entZero.colourIdx 1) = .ok (some "")
    ∧ (build_item 0
        (Json.obj [("attributes", .obj [("colour", .obj [("values", .arr [.str ""])]),
                                        ("material", .obj [("values", .arr [.str "", .str "glass"])])])])
        entZero 1 = .ok { id := 1, timestamp := "1970-01-01, 00:00:00" } →
        Record.colour { id := 1, timestamp := "1970-01-01, 00:00:00" } = none)
    ∧ build_item 0
        (Json.obj [("attributes", .obj [("colour", .obj [("values", .arr [.str ""])]),
                                        ("material", .obj [("values", .arr [.str "", .str "glass"])])])])
        entZero 1 = .ok { id := 1, timestamp := "1970-01-01, 00:00:00" } :=
  ⟨rfl,
   (empty_string_draw_omits_field 0
     (Json.obj [("attributes", .obj [("colour", .obj [("values", .arr [.str ""])]),
                                     ("material", .obj [("values", .arr [.str "", .str "glass"])])])])
     entZero 1 { id := 1, timestamp := "1970-01-01, 00:00:00" }).1 rfl,
   rfl⟩

/-! Claim C6. -/

/-- C6: on a configuration with no "duration" key the code does NOT fail
with a field-specific error: `get_duration` builds the field-specific
`Exception` without raising it and returns `None`; the run then dies with
a bare `TypeError` at `range(None)`. The claim's "no output records" part
does hold: nothing is emitted. -/
theorem missing_duration_not_raised :
    get_duration cfgNoDuration = .ok none
    ∧ generate_records 0 cfgNoDuration entZero = .error .typeError
    ∧ emitted_count (generate_sequence "config.json" (some cfgNoDuration) entZero 0) = 0 :=
  ⟨rfl, rfl, rfl⟩

/-! Claim C5. -/

/-- C5: the extension check is never applied, because line 51 tests the
truthiness of the bound method instead of calling it: a path failing
`check_file_format` still parses and the run generates records. The other
two failure cases (unopenable file, invalid JSON) do raise the documented
message. -/
theorem extension_check_never_applied :
    check_file_format "config.txt" = false
    ∧ parse_config "config.txt" (some cfgPlain) = .ok cfgPlain
    ∧ generate_records 0 cfgPlain entZero = .ok recsPlain
    ∧ emitted_count (generate_sequence "config.txt" (some cfgPlain) entZero 0) = 2
    ∧ parse_config "nofile.json" none = .error (.exceptionMsg config_error_message) := by
  refine ⟨by decide, rfl, rfl, ?_, rfl⟩
  have h1 : generate_sequence "config.txt" (some cfgPlain) entZero 0
      = .ok (List.mergeSort recsPlain recordLE) := rfl
  simp only [emitted_count, h1, emitted, List.length_mergeSort]
  rfl

/-! Claim C1. -/

/-- Configuration resolving duration 1 and rate 1 but declaring an empty
colour pool. -/
def cfgEmptyColour : Json :=
  .obj [("duration", .num 1), ("rate", .num 1),
        ("attributes", .obj [("colour", .obj [("values", .arr [])])])]

/-- C1 counterexample: this configuration resolves duration 1 and rate 1,
both non-negative, yet the run aborts on the first draw from the declared
empty colour pool and emits 0 records, not 1 × 1. -/
theorem record_count_fails_on_empty_pool :
    get_duration cfgEmptyColour = .ok (some 1)
    ∧ get_rate cfgEmptyColour entZero.randint = .ok (some 1)
    ∧ generate_sequence "config.json" (some cfgEmptyColour) entZero 0 = .error .indexError
    ∧ emitted_count (generate_sequence "config.json" (some cfgEmptyColour) entZero 0) ≠ 1 * 1 :=
  ⟨rfl, rfl, rfl, by decide⟩

/-- C1 (amended): for every run whose configuration parses, whose duration
resolves to a non-negative integer d and rate to a non-negative integer r,
and whose generation completes without an exception, generate_sequence
builds and emits exactly d × r item records. -/
theorem record_count_eq_duration_mul_rate
    (path : String) (fr : Option Json) (ent : Entropy) (start : Nat)
    (config : Json) (d r : Int) (l : List Record)
    (hp : parse_config path fr = .ok config)
    (hd : get_duration config = .ok (some d)) (hd0 : 0 ≤ d)
    (hr : get_rate config ent.randint = .ok (some r)) (hr0 : 0 ≤ r)
    (hok : generate_sequence path fr ent start = .ok l) :
    (emitted_count (generate_sequence path fr ent start) : Int) = d * r := by
  unfold generate_sequence
  rw [hp]
  dsimp only
  cases hg : generate_records start config ent with
  | error e =>
      unfold generate_sequence at hok
      rw [hp] at hok
      dsimp only at hok
      rw [hg] at hok
      exact nomatch hok
  | ok items =>
      dsimp only
      have hids := generate_records_ok start config ent d r items hd hr hg
      have hlen : items.length = d.toNat * r.toNat := by
        have h2 := congrArg List.length hids
        simpa using h2
      simp only [emitted_count, emitted, List.length_mergeSort, hlen]
      push_cast
      rw [Int.toNat_of_nonneg hd0, Int.toNat_of_nonneg hr0]

/-- Configuration with duration 2 and rate 3 and no attributes. -/
def cfgW23 : Json := .obj [("duration", .num 2), ("rate", .num 3)]

/-- The six records a run over cfgW23 generates from epoch second 0. -/
def recsW23 : List Record :=
  [{ id := 1, timestamp := "1970-01-01, 00:00:00" },
   { id := 2, timestamp := "1970-01-01, 00:00:01" },
   { id := 3, timestamp := "1970-01-01, 00:00:02" },
   { id := 4, timestamp := "1970-01-01, 00:00:03" },
   { id := 5, timestamp := "1970-01-01, 00:00:04" },
   { id := 6, timestamp := "1970-01-01, 00:00:05" }]

/-- C1 witness: duration 2 and rate 3 emit exactly 6 records. -/
theorem record_count_eq_duration_mul_rate_witness :
    (emitted_count (generate_sequence "config.json" (some cfgW23) entZero 0) : Int)
      = 2 * 3 := by
  have hsorted : List.Pairwise (fun a b => recordLE a b = true) recsW23 := by decide
  have h1 : generate_sequence "config.json" (some cfgW23) entZero 0
      = .ok (List.mergeSort recsW23 recordLE) := rfl
  have h2 : List.mergeSort recsW23 recordLE = recsW23 := List.mergeSort_of_sorted hsorted
  exact record_count_eq_duration_mul_rate "config.json" (some cfgW23) entZero 0 cfgW23
    2 3 recsW23 rfl rfl (by decide) rfl (by decide) (by rw [h1, h2])

/-! Claim C2. -/

/-- Configuration resolving duration 2 and rate 2 with an empty colour
pool. -/
def cfgEmptyColour22 : Json :=
  .obj [("duration", .num 2), ("rate", .num 2),
        ("attributes", .obj [("colour", .obj [("values", .arr [])])])]

/-- C2 counterexample: with resolved duration 2 and rate 2 the run aborts
while building the very first record, so the ids assigned in generation
order are not 1..4. -/
theorem ids_fail_on_empty_pool :
    get_duration cfgEmptyColour22 = .ok (some 2)
    ∧ get_rate cfgEmptyColour22 entZero.randint = .ok (some 2)
    ∧ generate_records 0 cfgEmptyColour22 entZero = .error .indexError
    ∧ ids_of (emitted (generate_records 0 cfgEmptyColour22 entZero)) ≠ List.range' 1 (2 * 2) :=
  ⟨rfl, rfl, rfl, by decide⟩

/-- C2 (amended): for every run whose generation completes without an
exception, the ids of the generated records in generation order are exactly
the consecutive integers 1, 2, ..., d.toNat * r.toNat with no gaps and no
repeats; they are attached by the generation loops, and the emitted output
is only a sort of that already-numbered list. -/
theorem ids_consecutive_from_one
    (start : Nat) (config : Json) (ent : Entropy) (d r : Int) (items : List Record)
    (hd : get_duration config = .ok (some d))
    (hr : get_rate config ent.randint = .ok (some r))
    (hg : generate_records start config ent = .ok items) :
    ids_of items = List.range' 1 (d.toNat * r.toNat)
    ∧ ∀ (path : String) (fr : Option Json), parse_config path fr = .ok config →
        generate_sequence path fr ent start = .ok (List.mergeSort items recordLE) := by
  constructor
  · exact generate_records_ok start config ent d r items hd hr hg
  · intro path fr hp
    unfold generate_sequence
    rw [hp]
    dsimp only
    rw [hg]

/-- C2 witness: the cfgPlain run generates records with ids [1, 2]. -/
theorem ids_consecutive_from_one_witness :
    ids_of recsPlain = List.range' 1 2
    ∧ generate_sequence "config.json" (some cfgPlain) entZero 0
        = .ok (List.mergeSort recsPlain recordLE) := by
  have h := ids_consecutive_from_one 0 cfgPlain entZero 2 1 recsPlain rfl rfl rfl
  exact ⟨h.1, h.2 "config.json" (some cfgPlain) rfl⟩

/-! Claim C3. -/

/-- C3: the emitted record list is sorted non-decreasing by the formatted
timestamp string (string order, lexicographic by code point), and the sort
is stable: at every timestamp value, the emitted subsequence equals the
generated subsequence, so equal-timestamp records keep generation order. -/
theorem output_sorted_and_stable
    (path : String) (fr : Option Json) (ent : Entropy) (start : Nat)
    (config : Json) (gen l : List Record)
    (hp : parse_config path fr = .ok config)
    (hg : generate_records start config ent = .ok gen)
    (hs : generate_sequence path fr ent start = .ok l) :
    List.Pairwise (fun a b => a.timestamp ≤ b.timestamp) l
    ∧ ∀ ts : String,
        l.filter (fun x => x.timestamp == ts) = gen.filter (fun x => x.timestamp == ts) := by
  have hval : generate_sequence path fr ent start = .ok (List.mergeSort gen recordLE) := by
    unfold generate_sequence
    rw [hp]
    dsimp only
    rw [hg]
  rw [hval] at hs
  simp only [Except.ok.injEq] at hs
  subst hs
  constructor
  · have hst := @List.sorted_mergeSort Record recordLE recordLE_trans recordLE_total gen
    exact hst.imp (fun h => (recordLE_iff _ _).mp h)
  · intro ts
    have hmem : ∀ x ∈ gen.filter (fun x => x.timestamp == ts), x.timestamp = ts := by
      intro x hx
      have h2 := (List.mem_filter.mp hx).2
      simpa using h2
    have hpw : (gen.filter (fun x => x.timestamp == ts)).Pairwise
        (fun a b => recordLE a b = true) :=
      List.pairwise_of_forall_mem_list
        (fun a ha b hb => (recordLE_iff a b).mpr (by rw [hmem a ha, hmem b hb]))
    have hsub : List.Sublist (gen.filter (fun x => x.timestamp == ts))
        (List.mergeSort gen recordLE) :=
      List.sublist_mergeSort recordLE_trans recordLE_total hpw (List.filter_sublist gen)
    have hff : (gen.filter (fun x => x.timestamp == ts)).filter (fun x => x.timestamp == ts)
        = gen.filter (fun x => x.timestamp == ts) :=
      List.filter_eq_self.mpr (fun a ha => (List.mem_filter.mp ha).2)
    have hsub2 : List.Sublist (gen.filter (fun x => x.timestamp == ts))
        ((List.mergeSort gen recordLE).filter (fun x => x.timestamp == ts)) := by
      have h3 := hsub.filter (fun x => x.timestamp == ts)
      rwa [hff] at h3
    have hlen : ((List.mergeSort gen recordLE).filter (fun x => x.timestamp == ts)).length
        = (gen.filter (fun x => x.timestamp == ts)).length :=
      ((List.mergeSort_perm gen recordLE).filter (fun x => x.timestamp == ts)).length_eq
    exact (hsub2.eq_of_length hlen.symm).symm

/-- C3 witness: the cfgPlain run's output is sorted by timestamp and its
subsequence at the first timestamp matches the generation list. -/
theorem output_sorted_and_stable_witness :
    List.Pairwise (fun a b : Record => a.timestamp ≤ b.timestamp) recsPlain
    ∧ recsPlain.filter (fun x => x.timestamp == "1970-01-01, 00:00:00")
        = recsPlain.filter (fun x => x.timestamp == "1970-01-01, 00:00:00") := by
  have hsorted : List.Pairwise (fun a b => recordLE a b = true) recsPlain := by decide
  have h1 : generate_sequence "config.json" (some cfgPlain) entZero 0
      = .ok (List.mergeSort recsPlain recordLE) := rfl
  have h2 : List.mergeSort recsPlain recordLE = recsPlain := List.mergeSort_of_sorted hsorted
  have h := output_sorted_and_stable "config.json" (some cfgPlain) entZero 0 cfgPlain
    recsPlain recsPlain rfl rfl (by rw [h1, h2])
  exact ⟨h.1, h.2 "1970-01-01, 00:00:00"⟩

/-- Unfolding of the interpreter on the concrete pattern of the source:
the format emits the year, then the DAY, then the MONTH. -/
theorem strftimeChars_pattern (dt : DateTime) :
    strftimeChars dt "%Y-%d-%m, %H:%M:%S".data
      = (pad4 dt.year).data ++ ('-' :: ((pad2 dt.day).data ++ ('-' :: ((pad2 dt.month).data
        ++ (',' :: ' ' :: ((pad2 dt.hour).data ++ (':' :: ((pad2 dt.minute).data
        ++ (':' :: ((pad2 dt.second).data ++ ([] : List Char))))))))))) := rfl

/-- Format shape of the source's pattern, at the String level: year, then
day, then month, then the time of day. -/
theorem strftime_pattern_format (dt : DateTime) : strftime fmtPattern dt
    = pad4 dt.year ++ "-" ++ pad2 dt.day ++ "-"
      ++ pad2 dt.month ++ ", " ++ pad2 dt.hour ++ ":"
      ++ pad2 dt.minute ++ ":" ++ pad2 dt.second := by
  apply String.ext
  show strftimeChars dt "%Y-%d-%m, %H:%M:%S".data = _
  rw [strftimeChars_pattern dt]
  simp only [String.data_append,
    show ("-" : String).data = ['-'] from rfl,
    show (", " : String).data = [',', ' '] from rfl,
    show (":" : String).data = [':'] from rfl]
  simp [List.append_assoc]

/-! Claim C4. -/

/-- C4: the timestamp of the record with id k is the run start time plus
(k − 1) seconds, and the format pattern renders the civil fields with the
year first, then the DAY, then the MONTH ("YYYY-DD-MM, HH:MM:SS"). -/
theorem timestamp_offset_and_format (start k : Nat) (hk : 1 ≤ k) :
    (build_base_dict start k).timestamp = strftime fmtPattern (toDateTime (start + (k - 1)))
    ∧ ∀ t : Nat, strftime fmtPattern (toDateTime t)
        = pad4 (toDateTime t).year ++ "-" ++ pad2 (toDateTime t).day ++ "-"
          ++ pad2 (toDateTime t).month ++ ", " ++ pad2 (toDateTime t).hour ++ ":"
          ++ pad2 (toDateTime t).minute ++ ":" ++ pad2 (toDateTime t).second :=
  ⟨rfl, fun t => strftime_pattern_format (toDateTime t)⟩

/-- C4 witness: for the first record of a run starting at epoch second 0
the formula holds and evaluates to the concrete day-before-month string
"1970-01-01, 00:00:00". -/
theorem timestamp_offset_and_format_witness :
    1 ≤ 1
    ∧ (build_base_dict 0 1).timestamp = strftime fmtPattern (toDateTime (0 + (1 - 1)))
    ∧ (build_base_dict 0 1).timestamp = "1970-01-01, 00:00:00" :=
  ⟨by decide, (timestamp_offset_and_format 0 1 (by decide)).1, rfl⟩

end GenSeq
